import Mathlib

/-!
# Verification of the DTP_API session-log / revert engine

A shallow embedding of the write-ahead session log, the log-line parser,
the revert (compensation) orchestrator, the guarded mutation gateway and
the pagination walker of the `DTP_API` Python repository, together with
proofs settling the specification claims.

Python strings are modelled as `List Char`; Python's heterogeneous values
(strings and lists of strings returned by the parser) as `PyVal`; JSON
payloads as `Json`.  Stateful methods are modelled in a state-and-error
monad `M` whose state records the network requests actually sent, the
session-log lines appended, the node dump files written, and the
orchestrator's diagnostic counter, and whose environment carries the
process configuration, the simulation flag and oracles for the store's
responses and the local file system.
-/

set_option maxHeartbeats 2000000
set_option linter.unusedVariables false
set_option synthInstance.maxHeartbeats 400000
set_option maxRecDepth 100000

/-- Characters of a Lean string literal, used to write Python string
constants as `List Char`. -/
def chars (s : String) : List Char := s.data

/-- Python's notion of whitespace for `str.strip` (ASCII part, which is all
that occurs in the session-log lines). -/
def pySpace (c : Char) : Bool :=
  c = ' ' || c = '\t' || c = '\n' || c = '\r' || c = '\x0b' || c = '\x0c'

/-- `str.lstrip()`. -/
def pyLStrip (s : List Char) : List Char := s.dropWhile pySpace

/-- `str.rstrip()`. -/
def pyRStrip (s : List Char) : List Char := (s.reverse.dropWhile pySpace).reverse

/-- `str.strip()`. -/
def pyStrip (s : List Char) : List Char := pyRStrip (pyLStrip s)

/-- `str.upper()` (ASCII model). -/
def pyUpper (s : List Char) : List Char := s.map Char.toUpper

/-- `str.split(sep)` for a one-character separator: splits on every
occurrence, yielding `[s]` (and `[""]` for the empty string) when the
separator does not occur — exactly Python's behaviour. -/
def pySplit (c : Char) : List Char → List (List Char)
  | [] => [[]]
  | x :: t =>
    if x = c then [] :: pySplit c t
    else
      match pySplit c t with
      | h :: r => (x :: h) :: r
      | [] => [[x]]

/-- `str.split(sep, 1)` for a one-character separator, as the pair of the
part before the first occurrence and the part after it; `none` when the
separator does not occur (in which case Python's 2-tuple unpacking of the
result raises `ValueError`, and indexing `[1]` raises `IndexError`). -/
def pySplitFirst (c : Char) : List Char → Option (List Char × List Char)
  | [] => none
  | x :: t =>
    if x = c then some ([], t)
    else (pySplitFirst c t).map (fun p => (x :: p.1, p.2))

/-- Index of the first occurrence of `m` in `s`, if any. -/
def findSub (s m : List Char) : Option Nat :=
  if m.isPrefixOf s then some 0
  else
    match s with
    | [] => none
    | _ :: t => (findSub t m).map (· + 1)

/-- Python's `str.find`: index of the first occurrence, `-1` if absent. -/
def pyFind (s m : List Char) : Int :=
  match findSub s m with
  | some n => (n : Int)
  | none => -1

/-- Python's substring test `m in s`. -/
def inStr (m s : List Char) : Bool := (findSub s m).isSome

/-- Python slice `s[0:i]` (negative stops count from the end, clamped). -/
def pySliceTo (s : List Char) (i : Int) : List Char :=
  s.take (if i < 0 then ((s.length : Int) + i).toNat else i.toNat)

/-- A Python runtime value as it flows through the log parser and the
revert orchestrator: a string, a list, a boolean, or `None`. -/
inductive PyVal : Type where
  | str (s : List Char)
  | list (l : List PyVal)
  | bool (b : Bool)
  | none

/-- `", "`-joined concatenation, as inside a Python list display. -/
def joinCommaSpace : List (List Char) → List Char
  | [] => []
  | [x] => x
  | x :: xs => x ++ chars ", " ++ joinCommaSpace xs

/-- `repr` of a Python string without quotes or backslashes in it:
wrapped in single quotes.  This is how an identifier appears when a list
of identifiers is interpolated into an f-string in the session-log
writers. -/
def pyStrRepr (s : List Char) : List Char := '\'' :: s ++ ['\'']

/-- The text an f-string produces for a Python list of such strings,
e.g. `['a', 'b']`. -/
def pyListRepr (l : List (List Char)) : List Char :=
  '[' :: joinCommaSpace (l.map pyStrRepr) ++ [']']

/-- `helpers.get_info_from_log(line, marker)`: finds the marker, takes the
rest of the line after it plus one separator character, strips it, and
either splits it once at the first comma and once more inside the first
`[...]` (when the line contains a `[`), or splits the whole remainder on
commas, stripping each field.  `none` models the `ValueError`/`IndexError`
Python raises when the expected separators are missing. -/
def get_info_from_log (line marker : List Char) : Option (List PyVal) :=
  let index := pyFind line marker
  let ids := pyStrip (line.drop (index + (marker.length : Int) + 1).toNat)
  if '[' ∈ line then
    match pySplitFirst ',' ids with
    | Option.none => Option.none
    | some (str1, str2) =>
      match pySplitFirst '[' (pyStrip str2) with
      | Option.none => Option.none
      | some (_, after) =>
        let inner := (pySplit ']' after).headI
        some [.str str1, .list ((pySplit ',' inner).map .str)]
  else
    some ((pySplit ',' ids).map (fun x => .str (pyStrip x)))

/-- A line of the session log as the `logging.Formatter`
`'%(asctime)s : %(message)s'` produces it. -/
def sessionLine (ts msg : List Char) : List Char := ts ++ chars " : " ++ msg

/-- The message the session-log writers emit for a two-identifier (flat)
payload, e.g. `"DTP_API - NEW_LINK_ELEMENT_BLOB: " + node_uuid + ', ' +
blob_uuid` in `link_node_element_to_blob` and the analogous f-strings in
the update methods. -/
def msgFlat2 (marker a b : List Char) : List Char :=
  chars "DTP_API - " ++ marker ++ chars ": " ++ a ++ chars ", " ++ b

/-- The message the session-log writers emit for an identifier plus a
Python list of identifiers, e.g.
`f"DTP_API - NEW_LINK_CONSTR_OPERATION: {constr_node_iri}, {old_out_edges}"`
in `link_node_constr_to_operation`: the list is interpolated as its
`repr`, so every element appears wrapped in single quotes. -/
def msgWithList (marker a : List Char) (l : List (List Char)) : List Char :=
  chars "DTP_API - " ++ marker ++ chars ": " ++ a ++ chars ", " ++ pyListRepr l

/-- An identifier field as the writers receive it: nonempty, and free of
whitespace, commas, brackets and quotes (IRIs, UUIDs and file paths used
with the log are of this form). -/
def fieldOk (s : List Char) : Prop :=
  s ≠ [] ∧ ∀ c ∈ s, pySpace c = false ∧ c ≠ ',' ∧ c ≠ '[' ∧ c ≠ ']' ∧ c ≠ '\''

instance (s : List Char) : Decidable (fieldOk s) := by
  unfold fieldOk
  infer_instance

/-! ## The mutation gateway, session log and revert orchestrator -/

/-- A JSON value, as built by `json.dumps` payloads. -/
inductive Json : Type where
  | str (s : List Char)
  | bool (b : Bool)
  | num (n : Int)
  | arr (l : List Json)
  | obj (l : List (List Char × Json))
  | null

mutual
/-- Python-to-JSON conversion, as `json.dumps` performs on payload values. -/
def Json.ofPy : PyVal → Json
  | .str s => .str s
  | .bool b => .bool b
  | .none => .null
  | .list l => .arr (Json.ofPyList l)
def Json.ofPyList : List PyVal → List Json
  | [] => []
  | x :: xs => Json.ofPy x :: Json.ofPyList xs
end

/-- Key lookup in an association list, first match wins. -/
def Json.lookupList (key : List Char) : List (List Char × Json) → Option Json
  | [] => Option.none
  | (k, v) :: t => if k = key then some v else Json.lookupList key t

/-- Look up a key in a JSON object (`d[key]`), `none` = `KeyError`. -/
def Json.lookup (key : List Char) : Json → Option Json
  | .obj l => Json.lookupList key l
  | _ => Option.none

/-- `d['items'][0]`: the first element of the `items` array of a node
query response, `none` when the shape is different (Python raises
`KeyError`/`IndexError`). -/
def Json.items0 (j : Json) : Option Json :=
  match j.lookup (chars "items") with
  | some (.arr (x :: _)) => some x
  | _ => Option.none

/-- `d['items'][0]['_uuid']` as a string, used by `get_uuid_for_iri`. -/
def Json.items0Uuid (j : Json) : Option (List Char) :=
  match j.items0 with
  | some o =>
    match o.lookup (chars "_uuid") with
    | some (.str s) => some s
    | _ => Option.none
  | _ => Option.none

/-- An HTTP request as prepared and sent over the wire: method, URL and
payload (headers always carry the same bearer token and are omitted). -/
structure Request : Type where
  method : List Char
  url : List Char
  payload : Json

/-- An HTTP response from the store. -/
structure Response : Type where
  ok : Bool
  status : Nat
  body : Json

/-- A Python exception, by kind. -/
inductive Err : Type where
  | valueError
  | typeError
  | keyError
  | validation
  | transport (status : Nat)
  | fileNotFound
  | attributeError
  | assertionError

/-- The read-only context of a run: the configuration, the simulation
flag, and oracles for the store's responses, URL validation
(`validators.url`), the local file system (node dump files) and the
fresh UUIDs `uuid.uuid4()` hands out in simulation mode.  The session
logger's presence models `self.session_logger is not None`. -/
structure Env : Type where
  domain : List Char
  ontologyUri : List Char → List Char
  apiUrl : List Char → List Char
  apiUrl2 : List Char → List Char → List Char
  nodeLogDir : List Char
  sim : Bool
  hasLogger : Bool
  respond : Request → Response
  urlValid : List Char → Bool
  files : List Char → Option Json
  freshUuid : List Char

/-- The mutable trace of a run: network requests actually sent (in
order), session-log messages appended, node dump files written, and the
revert orchestrator's diagnostic counter. -/
structure St : Type where
  sent : List Request
  sessionLog : List (List Char)
  dumps : List (List Char × Json)
  counter : Nat

/-- The state-and-error monad the methods run in.  Unlike
`StateT _ (Except _)`, the state (the trace of performed effects)
survives an exception, as it does in Python. -/
def M (α : Type) : Type := Env → St → Except Err α × St

instance : Monad M where
  pure a := fun _ s => (.ok a, s)
  bind m f := fun env s =>
    match m env s with
    | (.ok a, s₁) => f a env s₁
    | (.error e, s₁) => (.error e, s₁)

instance : MonadExceptOf Err M where
  throw e := fun _ s => (.error e, s)
  tryCatch m h := fun env s =>
    match m env s with
    | (.error e, s₁) => h e env s₁
    | r => r

/-- Read the environment. -/
def askEnv : M Env := fun env s => (.ok env, s)

/-- `session.send(prepared)`: the one primitive that performs network
I/O; it appends the request to the trace. -/
def sendReq (r : Request) : M Unit :=
  fun _ s => (.ok (), { s with sent := s.sent ++ [r] })

/-- `self.session_logger.info(msg)` guarded by
`if self.session_logger is not None`. -/
def sessionInfo (msg : List Char) : M Unit :=
  fun env s =>
    (.ok (), if env.hasLogger then { s with sessionLog := s.sessionLog ++ [msg] } else s)

/-- `json.dump(node_info, fp)`: writing a node backup dump file. -/
def writeDump (path : List Char) (j : Json) : M Unit :=
  fun _ s => (.ok (), { s with dumps := s.dumps ++ [(path, j)] })

/-- `counter += 1` in the revert loop. -/
def incCounter : M Unit :=
  fun _ s => (.ok (), { s with counter := s.counter + 1 })

/-- Lift an `Option` into `M`, raising the given exception on `none`
(models Python `KeyError`/`IndexError` on dictionary/list access). -/
def liftOpt (e : Err) : Option α → M α
  | some a => pure a
  | Option.none => throw e

/-- The string form a Python value takes in the revert orchestrator's
destructuring; non-strings raise `TypeError` (Python would defer the type
mismatch into the called method's body, but in both models the line fails;
within the verified claims every destructured value is a string). -/
def asStr : PyVal → M (List Char)
  | .str s => pure s
  | _ => throw .typeError

/-- Elementwise `asStr` over a list of parsed values. -/
def asStrEach : List PyVal → M (List (List Char))
  | [] => pure []
  | v :: t => do
    let s ← asStr v
    let r ← asStrEach t
    pure (s :: r)

/-- Elementwise `asStr` for a parsed sub-list. -/
def asStrList : PyVal → M (List (List Char))
  | .list l => asStrEach l
  | _ => throw .typeError

/-- `s.rsplit('/')[-1]`. -/
def lastComponent (s : List Char) : List Char := (pySplit '/' s).getLastD []

/-- `os.path.join(self.node_log_dir, f"{x.rsplit('/')[-1]}.json")`. -/
def dumpPath (env : Env) (x : List Char) : List Char :=
  env.nodeLogDir ++ '/' :: (lastComponent x ++ chars ".json")

/-- An `_outE` edge dictionary. -/
def outEdge (label target : List Char) : Json :=
  Json.obj [(chars "_label", .str label), (chars "_targetIRI", .str target)]

/-- The `[{"_domain": .., "_iri": .., "_outE": [..]}]` payload common to
the link/unlink methods. -/
def edgePayload (env : Env) (iri : List Char) (edges : List Json) : Json :=
  Json.arr [Json.obj [(chars "_domain", .str env.domain),
    (chars "_iri", .str iri), (chars "_outE", .arr edges)]]

/-- The `{"query": {"$domain": .., "$iri": ..}}` payload of the by-IRI
queries. -/
def iriQueryPayload (env : Env) (iri : List Char) : Json :=
  Json.obj [(chars "query", Json.obj [(chars "$domain", .str env.domain),
    (chars "$iri", .str iri)])]

/-- `DTPApi.post_general_request`: unguarded POST; validates the URL,
always sends, and raises on a non-ok response.  Returns the response body
(callers invoke `.json()` on the returned response). -/
def post_general_request (payload : Json) (url : List Char) : M Json := do
  let env ← askEnv
  if !env.urlValid url then throw .validation
  let req : Request := ⟨chars "POST", url, payload⟩
  sendReq req
  let r := env.respond req
  if r.ok then pure r.body else throw (.transport r.status)

/-- `DTPApi.general_guarded_request`: strips and uppercases the request
type, *constructs* (but never raises) the emptiness and PUT/POST check
exceptions, and sends only when simulation mode is off, returning the raw
response (`none` under simulation). -/
def general_guarded_request (req_type : List Char) (payload : Json)
    (url : List Char) : M (Option Response) := do
  let env ← askEnv
  let req_type_fix := pyUpper (pyStrip req_type)
  -- `Exception("Request type cannot be empty!")` is built and discarded:
  let _unraised₁ := req_type_fix.length = 0
  -- `Exception("Request type has to be: PUT or POST!")` likewise (its
  -- condition is also a tautology in the source):
  let _unraised₂ := req_type_fix ≠ chars "PUT" ∨ req_type_fix ≠ chars "POST"
  let req : Request := ⟨req_type_fix, url, payload⟩
  if !env.sim then do
    sendReq req
    pure (some (env.respond req))
  else
    pure Option.none

/-- `DTPApi.post_guarded_request`. -/
def post_guarded_request (payload : Json) (url : List Char) : M (Option Response) :=
  general_guarded_request (chars "POST") payload url

/-- `DTPApi.put_guarded_request`. -/
def put_guarded_request (payload : Json) (url : List Char) : M (Option Response) :=
  general_guarded_request (chars "PUT") payload url

/-- `FetchAPI.fetch_node_with_uuid`. -/
def fetch_node_with_uuid (node_uuid : List Char) : M Json := do
  let env ← askEnv
  let payload := Json.obj [(chars "query", Json.obj
    [(chars "$domain", .str env.domain), (chars "$uuid", .str node_uuid)])]
  post_general_request payload (env.apiUrl (chars "get_find_elements"))

/-- `FetchAPI.get_uuid_for_iri`: validates the IRI, queries the store for
the node and extracts `['items'][0]['_uuid']`; under simulation returns a
fresh UUID without network I/O. -/
def get_uuid_for_iri (iri : List Char) : M (List Char) := do
  let env ← askEnv
  if !env.urlValid iri then throw .validation
  let req : Request := ⟨chars "POST", env.apiUrl (chars "get_find_elements"),
    iriQueryPayload env iri⟩
  if !env.sim then do
    sendReq req
    let r := env.respond req
    if r.ok then liftOpt .keyError r.body.items0Uuid
    else throw (.transport r.status)
  else
    pure env.freshUuid

/-- `RevertAPI.unlink_node_from_blob`: inline POST to `unlink_blob`,
honouring simulation mode; returns `True`/`False`, never raises. -/
def unlink_node_from_blob (node_uuid blob_uuid : List Char) : M PyVal := do
  let env ← askEnv
  let payload := Json.obj [(chars "blob_uuid", .str blob_uuid),
    (chars "avatar_uuids", .arr [.str node_uuid]),
    (chars "ignore_conflicts", .bool false)]
  let req : Request := ⟨chars "POST", env.apiUrl (chars "unlink_blob"), payload⟩
  if !env.sim then do
    sendReq req
    let r := env.respond req
    if r.ok then pure (.bool true) else pure (.bool false)
  else
    pure (.bool true)

/-- `RevertAPI.delete_blob_from_platform`: inline DELETE of
`delete_blob/<uuid>` with an empty body. -/
def delete_blob_from_platform (blob_uuid : List Char) : M PyVal := do
  let env ← askEnv
  let req : Request := ⟨chars "DELETE",
    env.apiUrl2 (chars "delete_blob") blob_uuid, Json.str []⟩
  if !env.sim then do
    sendReq req
    let r := env.respond req
    if r.ok then pure (.bool true) else pure (.bool false)
  else
    pure (.bool true)

/-- `RevertAPI.delete_asdesigned_param_node`: guarded PUT to
`update_unset` removing the `isAsDesigned` field (with the `"delete"`
placeholder value). -/
def delete_asdesigned_param_node (node_iri : List Char) : M PyVal := do
  let env ← askEnv
  let payload := Json.arr [Json.obj [(chars "_domain", .str env.domain),
    (chars "_iri", .str node_iri),
    (env.ontologyUri (chars "isAsDesigned"), .str (chars "delete"))]]
  let response ← put_guarded_request payload (env.apiUrl (chars "update_unset"))
  if !env.sim then
    match response with
    | some r => if r.ok then pure (.bool true) else pure (.bool false)
    | Option.none => throw .attributeError
  else
    pure (.bool true)

/-- `RevertAPI.unlink_element_type`: guarded PUT to `update_unset` with a
single `hasElementType` edge. -/
def unlink_element_type (node_iri target_iri : List Char) : M PyVal := do
  let env ← askEnv
  let payload := edgePayload env node_iri
    [outEdge (env.ontologyUri (chars "hasElementType")) target_iri]
  let response ← put_guarded_request payload (env.apiUrl (chars "update_unset"))
  if !env.sim then
    match response with
    | some r => if r.ok then pure (.bool true) else pure (.bool false)
    | Option.none => throw .attributeError
  else
    pure (.bool true)

/-- `RevertAPI.unlink_task_type`: guarded PUT to `update_unset` with a
single `hasTaskType` edge. -/
def unlink_task_type (node_iri target_iri : List Char) : M PyVal := do
  let env ← askEnv
  let payload := edgePayload env node_iri
    [outEdge (env.ontologyUri (chars "hasTaskType")) target_iri]
  let response ← put_guarded_request payload (env.apiUrl (chars "update_unset"))
  if !env.sim then
    match response with
    | some r => if r.ok then pure (.bool true) else pure (.bool false)
    | Option.none => throw .attributeError
  else
    pure (.bool true)

/-- `RevertAPI.unlink_constr_op`: builds one `update_unset` payload with
one `hasOperation` out-edge per operation IRI and issues a single guarded
PUT. -/
def unlink_constr_op (constr_node_iri : List Char)
    (list_of_operation_iri : List (List Char)) : M PyVal := do
  let env ← askEnv
  let out_edge_to_operation := list_of_operation_iri.map
    (outEdge (env.ontologyUri (chars "hasOperation")))
  let payload := edgePayload env constr_node_iri out_edge_to_operation
  let response ← put_guarded_request payload (env.apiUrl (chars "update_unset"))
  if !env.sim then
    match response with
    | some r => if r.ok then pure (.bool true) else pure (.bool false)
    | Option.none => throw .attributeError
  else
    pure (.bool true)

/-- `RevertAPI.unlink_operation_action`: same shape with `hasAction`
edges. -/
def unlink_operation_action (oper_node_iri : List Char)
    (list_of_action_iri : List (List Char)) : M PyVal := do
  let env ← askEnv
  let out_edge_to_actions := list_of_action_iri.map
    (outEdge (env.ontologyUri (chars "hasAction")))
  let payload := edgePayload env oper_node_iri out_edge_to_actions
  let response ← put_guarded_request payload (env.apiUrl (chars "update_unset"))
  if !env.sim then
    match response with
    | some r => if r.ok then pure (.bool true) else pure (.bool false)
    | Option.none => throw .attributeError
  else
    pure (.bool true)

/-- `RevertAPI.unlink_action_asbuilt`: guarded PUT to `update_unset` with
a single `hasTarget` edge. -/
def unlink_action_asbuilt (action_node_iri target_asbuilt_iri : List Char) : M PyVal := do
  let env ← askEnv
  let payload := edgePayload env action_node_iri
    [outEdge (env.ontologyUri (chars "hasTarget")) target_asbuilt_iri]
  let response ← put_guarded_request payload (env.apiUrl (chars "update_unset"))
  if !env.sim then
    match response with
    | some r => if r.ok then pure (.bool true) else pure (.bool false)
    | Option.none => throw .attributeError
  else
    pure (.bool true)

/-- `RevertAPI.revert_node_update`: loads the node backup dump file
(raising if it cannot be opened, as `open` does), takes
`node_info['items'][0]` as payload and issues a guarded PUT to
`update_set`. -/
def revert_node_update (node_iri dump_path : List Char) : M PyVal := do
  let env ← askEnv
  let node_info ← liftOpt .fileNotFound (env.files dump_path)
  let payload ← liftOpt .keyError node_info.items0
  let response ← put_guarded_request payload (env.apiUrl (chars "update_set"))
  if !env.sim then
    match response with
    | some r => if r.ok then pure (.bool true) else pure (.bool false)
    | Option.none => throw .attributeError
  else
    pure (.bool true)

/-- `RevertAPI.delete_node_from_graph`: backs up the node (an unguarded
fetch by UUID plus a dump file), then an inline DELETE honouring
simulation mode; logs a `DELETE_NODE_UUID` session line on success. -/
def delete_node_from_graph (node_uuid : List Char) : M PyVal := do
  let env ← askEnv
  let node_info ← fetch_node_with_uuid node_uuid
  let dump_path := dumpPath env node_uuid
  writeDump dump_path node_info
  let req : Request := ⟨chars "DELETE",
    env.apiUrl2 (chars "delete_avatar") node_uuid, Json.str []⟩
  if !env.sim then do
    sendReq req
    let r := env.respond req
    if r.ok then do
      sessionInfo (chars "DTP_API - DELETE_NODE_UUID: " ++ node_uuid ++
        chars ", " ++ dump_path)
      pure (.bool true)
    else pure (.bool false)
  else
    pure (.bool true)

/-- `LinkAPI.link_node_element_to_blob`: guarded POST to `link_blob`;
on a real, ok response writes the `NEW_LINK_ELEMENT_BLOB` session line. -/
def link_node_element_to_blob (node_uuid blob_uuid : List Char) : M PyVal := do
  let env ← askEnv
  let payload := Json.obj [(chars "blob_uuid", .str blob_uuid),
    (chars "avatar_uuids", .arr [.str node_uuid]),
    (chars "ignore_conflicts", .bool false)]
  let response ← post_guarded_request payload (env.apiUrl (chars "link_blob"))
  if !env.sim then
    match response with
    | some r =>
      if r.ok then do
        sessionInfo (chars "DTP_API - NEW_LINK_ELEMENT_BLOB: " ++ node_uuid ++
          chars ", " ++ blob_uuid)
        pure (.bool true)
      else pure (.bool false)
    | Option.none => throw .attributeError
  else
    pure (.bool true)

/-- `UpdateAPI.update_asdesigned_param_node`: guarded PUT to `update_set`
setting the `isAsDesigned` field; on a real, ok response writes the
`UPDATE_isAsDesigned_PARAM_NODE_OPERATION` session line. -/
def update_asdesigned_param_node (node_iri : List Char) (is_as_designed : Bool) : M PyVal := do
  let env ← askEnv
  let payload := Json.arr [Json.obj [(chars "_domain", .str env.domain),
    (chars "_iri", .str node_iri),
    (env.ontologyUri (chars "isAsDesigned"), .bool is_as_designed)]]
  let response ← put_guarded_request payload (env.apiUrl (chars "update_set"))
  if !env.sim then
    match response with
    | some r =>
      if r.ok then do
        sessionInfo (chars "DTP_API - UPDATE_isAsDesigned_PARAM_NODE_OPERATION: "
          ++ node_iri ++ chars ", " ++
          (if is_as_designed then chars "True" else chars "False"))
        pure (.bool true)
      else pure (.bool false)
    | Option.none => throw .attributeError
  else
    pure (.bool true)

/-- `UpdateAPI.delete_param_in_node`: outside revert-session mode asserts
a previous value was given (for logging); guarded PUT to `update_unset`
with the placeholder value; on success logs the
`REMOVED_PARAM_NODE_OPERATION` line (note its trailing space). -/
def delete_param_in_node (node_iri field : List Char)
    (previous_field_value : Option (List Char))
    (field_placeholder : List Char := chars "delete")
    (is_revert_session : Bool := false) : M PyVal := do
  let env ← askEnv
  if !is_revert_session then
    if previous_field_value.isNone then throw .assertionError
  let payload := Json.arr [Json.obj [(chars "_domain", .str env.domain),
    (chars "_iri", .str node_iri), (field, .str field_placeholder)]]
  let response ← put_guarded_request payload (env.apiUrl (chars "update_unset"))
  if !env.sim then
    match response with
    | some r =>
      if r.ok then do
        sessionInfo (chars "DTP_API - REMOVED_PARAM_NODE_OPERATION: " ++
          node_iri ++ chars ", " ++ field ++ chars ", " ++
          (match previous_field_value with
           | some v => v
           | Option.none => chars "None") ++ chars " ")
        pure (.bool true)
      else pure (.bool false)
    | Option.none => throw .attributeError
  else
    pure (.bool true)

/-- `UpdateAPI.add_param_in_node`: guarded PUT to `update_set` adding one
field; on success logs the `ADD_PARAM_NODE_OPERATION` line. -/
def add_param_in_node (node_iri field field_value : List Char) : M PyVal := do
  let env ← askEnv
  let payload := Json.arr [Json.obj [(chars "_domain", .str env.domain),
    (chars "_iri", .str node_iri), (field, .str field_value)]]
  let response ← put_guarded_request payload (env.apiUrl (chars "update_set"))
  if !env.sim then
    match response with
    | some r =>
      if r.ok then do
        sessionInfo (msgFlat2 (chars "ADD_PARAM_NODE_OPERATION") node_iri field)
        pure (.bool true)
      else pure (.bool false)
    | Option.none => throw .attributeError
  else
    pure (.bool true)

/-- Python's 2-tuple unpacking `a, b = v`; `ValueError` unless the list
has exactly two elements. -/
def unpack2 : List PyVal → M (PyVal × PyVal)
  | [a, b] => pure (a, b)
  | _ => throw .valueError

/-- Python's 3-tuple unpacking. -/
def unpack3 : List PyVal → M (PyVal × PyVal × PyVal)
  | [a, b, c] => pure (a, b, c)
  | _ => throw .valueError

/-- `v[0]` (`IndexError` on an empty list, which the parser never
returns). -/
def index0 : List PyVal → M PyVal
  | x :: _ => pure x
  | [] => throw .valueError

/-- `get_info_from_log` lifted into `M`: a missing separator raises. -/
def parseLog (line marker : List Char) : M (List PyVal) :=
  liftOpt .valueError (get_info_from_log line marker)

/-- `try m except Exception: ...` around a single call: the error is
reified instead of propagating. -/
def observeErr (m : M α) : M (Except Err α) := fun env s =>
  match m env s with
  | (.ok a, s') => (.ok (.ok a), s')
  | (.error e, s') => (.ok (.error e), s')

/-- The node-creation marker set, in the insertion order of
`self.log_markers_node_classes`. -/
def nodeClassMarkers : List (List Char) :=
  [chars "NEW_ELEMENT_IRI", chars "NEW_DEFECT_IRI", chars "NEW_ACTION_IRI",
   chars "NEW_OPERATION_IRI", chars "NEW_CONSTRUCTION_IRI", chars "NEW_KPI_IRI"]

/-- All recognized markers (`self.log_markers`), node-creation and other,
in insertion order. -/
def allMarkers : List (List Char) :=
  nodeClassMarkers ++
  [chars "NEW_LINK_ELEMENT_BLOB", chars "NEW_BLOB",
   chars "UPDATE_isAsDesigned_PARAM_NODE_OPERATION", chars "UPDATE_ACTION_IRI",
   chars "UPDATE_OPERATION_IRI", chars "UPDATE_CONSTRUCTION_IRI",
   chars "REMOVED_PARAM_NODE_OPERATION", chars "ADD_PARAM_NODE_OPERATION",
   chars "NEW_LINK_ELEMENT_ELEMENT_TYPE", chars "NEW_LINK_CONSTR_OPERATION",
   chars "NEW_LINK_OPERATION_ACTION", chars "NEW_LINK_ACTION_ASBUILT",
   chars "NEW_LINK_NODE_TASK_TYPE"]

/-- One iteration of the `revert_last_session` loop: the `if`/`elif`
marker dispatch of `DTP_API.py`, in source order, including the
counter-increment placement of each branch, the `try`/`except` that wraps
*only* the IRI→UUID lookup of the node-creation fallback, and the
`continue` on a line with no recognized marker. -/
def revert_line (line : List Char) : M Unit := do
  let msg_date := pySliceTo line (pyFind line (chars " : "))
  if inStr (chars "NEW_LINK_ELEMENT_BLOB") line then do
    let info ← parseLog line (chars "NEW_LINK_ELEMENT_BLOB")
    let (e, b) ← unpack2 info
    incCounter
    let element_uuid ← asStr e
    let blob_uuid ← asStr b
    let _ ← unlink_node_from_blob element_uuid blob_uuid
    pure ()
  else if inStr (chars "NEW_BLOB") line then do
    let info ← parseLog line (chars "NEW_BLOB")
    let blob_uuid ← asStr (← index0 info)
    let _ ← delete_blob_from_platform blob_uuid
    incCounter
  else if inStr (chars "UPDATE_isAsDesigned_PARAM_NODE_OPERATION") line then do
    let info ← parseLog line (chars "UPDATE_isAsDesigned_PARAM_NODE_OPERATION")
    let element_iri ← asStr (← index0 info)
    let _ ← delete_asdesigned_param_node element_iri
    incCounter
  else if inStr (chars "UPDATE_ACTION_IRI") line then do
    let info ← parseLog line (chars "UPDATE_ACTION_IRI")
    let (n, d) ← unpack2 info
    let node_iri ← asStr n
    let dump_path ← asStr d
    let _ ← revert_node_update node_iri dump_path
    pure ()
  else if inStr (chars "UPDATE_OPERATION_IRI") line then do
    let info ← parseLog line (chars "UPDATE_OPERATION_IRI")
    let (n, d) ← unpack2 info
    let node_iri ← asStr n
    let dump_path ← asStr d
    let _ ← revert_node_update node_iri dump_path
    incCounter
  else if inStr (chars "UPDATE_CONSTRUCTION_IRI") line then do
    let info ← parseLog line (chars "UPDATE_CONSTRUCTION_IRI")
    let (n, d) ← unpack2 info
    let node_iri ← asStr n
    let dump_path ← asStr d
    let _ ← revert_node_update node_iri dump_path
    incCounter
  else if inStr (chars "REMOVED_PARAM_NODE_OPERATION") line then do
    let info ← parseLog line (chars "REMOVED_PARAM_NODE_OPERATION")
    let (n, f, v) ← unpack3 info
    let node_iri ← asStr n
    let field ← asStr f
    let field_value ← asStr v
    let _ ← add_param_in_node node_iri field field_value
    incCounter
  else if inStr (chars "ADD_PARAM_NODE_OPERATION") line then do
    let info ← parseLog line (chars "ADD_PARAM_NODE_OPERATION")
    let (n, f) ← unpack2 info
    let node_iri ← asStr n
    let field ← asStr f
    let _ ← delete_param_in_node node_iri field Option.none (chars "delete") true
    incCounter
  else if inStr (chars "NEW_LINK_ELEMENT_ELEMENT_TYPE") line then do
    let info ← parseLog line (chars "NEW_LINK_ELEMENT_ELEMENT_TYPE")
    let (n, t) ← unpack2 info
    let node_iri ← asStr n
    let element_type_iri ← asStr t
    let _ ← unlink_element_type node_iri element_type_iri
    incCounter
  else if inStr (chars "NEW_LINK_CONSTR_OPERATION") line then do
    let info ← parseLog line (chars "NEW_LINK_CONSTR_OPERATION")
    let (c, ops) ← unpack2 info
    let constr_node_iri ← asStr c
    let list_of_operation_iri ← asStrList ops
    let _ ← unlink_constr_op constr_node_iri list_of_operation_iri
    incCounter
  else if inStr (chars "NEW_LINK_OPERATION_ACTION") line then do
    let info ← parseLog line (chars "NEW_LINK_OPERATION_ACTION")
    let (o, acts) ← unpack2 info
    let oper_node_iri ← asStr o
    let list_of_action_iri ← asStrList acts
    let _ ← unlink_operation_action oper_node_iri list_of_action_iri
    pure ()
  else if inStr (chars "NEW_LINK_ACTION_ASBUILT") line then do
    let info ← parseLog line (chars "NEW_LINK_ACTION_ASBUILT")
    let (a, t) ← unpack2 info
    let action_node_iri ← asStr a
    let target_asbuilt_iri ← asStr t
    let _ ← unlink_action_asbuilt action_node_iri target_asbuilt_iri
    pure ()
  else if inStr (chars "NEW_LINK_NODE_TASK_TYPE") line then do
    let info ← parseLog line (chars "NEW_LINK_NODE_TASK_TYPE")
    let (n, t) ← unpack2 info
    let node_iri ← asStr n
    let task_type_iri ← asStr t
    let _ ← unlink_task_type node_iri task_type_iri
    incCounter
  else
    match nodeClassMarkers.find? (fun m => inStr m line) with
    | Option.none => pure ()
    | some node_class => do
      let index := pyFind line node_class
      let node_iri := pyStrip (line.drop (index + (node_class.length : Int) + 1).toNat)
      match ← observeErr (get_uuid_for_iri node_iri) with
      | .error _ => pure ()
      | .ok node_uuid => do
        let _ ← delete_node_from_graph node_uuid
        incCounter

/-- Sequential processing of a list of lines, first to last. -/
def revert_lines : List (List Char) → M Unit
  | [] => pure ()
  | l :: ls => do
    revert_line l
    revert_lines ls

/-- `DTPApi.revert_last_session`: `FileReadBackwards` yields the file's
lines from the last to the first, so the orchestrator processes the
session log (given here as its list of lines, oldest first) in reverse
order. -/
def revert_last_session (lines : List (List Char)) : M Unit :=
  revert_lines lines.reverse

/-- Python string `<=` (lexicographic by code point). -/
def pyStrLe : List Char → List Char → Bool
  | [], _ => true
  | _ :: _, [] => false
  | a :: x, b :: y => if a = b then pyStrLe x y else decide (a < b)

/-- Stable insertion of one name into an ascending list (after all names
`<=` it), the auxiliary step of `sorted`. -/
def pySortInsert (x : List Char) : List (List Char) → List (List Char)
  | [] => [x]
  | y :: t => if pyStrLe y x then y :: pySortInsert x t else x :: y :: t

/-- Python's `sorted(·, reverse=False)`: a stable ascending sort. -/
def pySorted : List (List Char) → List (List Char)
  | [] => []
  | x :: t => pySortInsert x (pySorted t)

/-- `DTPApi.revert_sessions`, as the order in which it hands the
directory's files to `revert_last_session`: keep the names ending in
`'.log'` and sort ascending (`sorted(log_files, reverse=False)` — the
adjacent comment says "newest to oldest", but for time-stamp-named files
ascending lexicographic order is oldest first). -/
def revert_sessions_order (files : List (List Char)) : List (List Char) :=
  let log_files := files.filter (fun f => (chars ".log").isSuffixOf f)
  pySorted log_files

/-! ## The pagination walker -/

/-- One result page from the store: `items`, `size`, optional `next`
cursor (its absence models a dictionary without the `'next'` key). -/
structure PyPage : Type where
  items : List Int
  size : Int
  next : Option (List Char)

/-- The `while` loop of `query_all_pages`, on fuel: `acc` is the first
page's dictionary being accumulated into, `cur` the page the loop
condition inspects.  With fuel `0` the walk is cut off (the source
would keep looping — its documented non-termination risk). -/
def queryLoop (fetch : Option (List Char) → PyPage) :
    Nat → PyPage → PyPage → PyPage
  | 0, acc, _ => acc
  | fuel + 1, acc, cur =>
    if cur.next.isSome ∧ cur.size ≠ 0 then
      let p := fetch cur.next
      if p.size ≤ 0 then acc
      else queryLoop fetch fuel
        { acc with items := acc.items ++ p.items, size := acc.size + p.size } p
    else acc

/-- `DTPApi.query_all_pages`: fetch the first page, then follow `next`
cursors, accumulating `items` and `size` into the first page's
dictionary. -/
def query_all_pages (fuel : Nat) (fetch : Option (List Char) → PyPage) : PyPage :=
  let first := fetch Option.none
  queryLoop fetch fuel first first

/-- The cursors `query_all_pages` fetches, in order (`none` is the
initial `fetch_function(*args)` call). -/
def queryLoopCalls (fetch : Option (List Char) → PyPage) :
    Nat → PyPage → List (Option (List Char))
  | 0, _ => []
  | fuel + 1, cur =>
    if cur.next.isSome ∧ cur.size ≠ 0 then
      let p := fetch cur.next
      if p.size ≤ 0 then [cur.next]
      else cur.next :: queryLoopCalls fetch fuel p
    else []

/-- All fetches `query_all_pages` performs, in order. -/
def query_all_pages_calls (fuel : Nat)
    (fetch : Option (List Char) → PyPage) : List (Option (List Char)) :=
  Option.none :: queryLoopCalls fetch fuel (fetch Option.none)

/-- The reference pagination walk, defined from the specification's words
(§4.2): starting from the first fetched page, while the current page has
a `next` cursor and non-zero `size`, fetch the following page; if its
`size <= 0` stop without merging it, otherwise append its `items` and add
its `size`; return the accumulated result set. -/
def fetchAllSpecLoop (fetch : Option (List Char) → PyPage) :
    Nat → List Int → Int → PyPage → List Int × Int
  | 0, accItems, accSize, _ => (accItems, accSize)
  | fuel + 1, accItems, accSize, page =>
    if page.next.isSome ∧ page.size ≠ 0 then
      let p := fetch page.next
      if p.size ≤ 0 then (accItems, accSize)
      else fetchAllSpecLoop fetch fuel (accItems ++ p.items) (accSize + p.size) p
    else (accItems, accSize)

/-- The reference walker's result set (same shape as a page). -/
def fetch_all_spec (fuel : Nat) (fetch : Option (List Char) → PyPage) : PyPage :=
  let first := fetch Option.none
  let r := fetchAllSpecLoop fetch fuel first.items first.size first
  { first with items := r.1, size := r.2 }

/-! ## Concrete instances used by witnesses and counterexamples -/

/-- A store response whose body has the `items[0]` shape every extraction
in the code expects. -/
def stdOkBody : Json :=
  Json.obj [(chars "items", .arr [Json.obj
    [(chars "_uuid", .str (chars "uuid-1")), (chars "_outE", .arr [])]])]

/-- An always-ok response. -/
def stdOkResponse : Response := ⟨true, 200, stdOkBody⟩

/-- A concrete environment: every URL valid, every response ok with the
standard body, a session logger installed. -/
def envOf (sim : Bool) : Env where
  domain := chars "https://dtp.eu/domain"
  ontologyUri := fun n => chars "https://onto/" ++ n
  apiUrl := fun n => chars "https://api/" ++ n
  apiUrl2 := fun n x => chars "https://api/" ++ n ++ '/' :: x
  nodeLogDir := chars "logs/nodes"
  sim := sim
  hasLogger := true
  respond := fun _ => stdOkResponse
  urlValid := fun _ => true
  files := fun _ => some stdOkBody
  freshUuid := chars "fresh-uuid"

/-- A variant whose find-elements responses are errors (store lookup
failure). -/
def envLookupFail : Env :=
  { envOf false with respond := fun _ => ⟨false, 500, Json.null⟩ }

/-- The empty starting trace. -/
def st0 : St := ⟨[], [], [], 0⟩

/-- A valid `NEW_ELEMENT_IRI` line. -/
def lineElem1 : List Char :=
  chars "01-Jan-24 10:00:00 : DTP_API - NEW_ELEMENT_IRI: https://e1"

/-- A line with a recognized marker but a one-field payload (fewer fields
than `NEW_LINK_ELEMENT_BLOB`'s two-identifier contract). -/
def lineBadBlob : List Char :=
  chars "01-Jan-24 10:00:01 : DTP_API - NEW_LINK_ELEMENT_BLOB: justone"

/-- A second valid `NEW_ELEMENT_IRI` line. -/
def lineElem2 : List Char :=
  chars "01-Jan-24 10:00:02 : DTP_API - NEW_ELEMENT_IRI: https://e2"

/-- A line containing no recognized marker at all. -/
def lineNoMarker : List Char :=
  chars "01-Jan-24 10:00:03 : some unrelated message"

/-- A `NEW_LINK_CONSTR_OPERATION` line with a two-element bracketed
payload. -/
def lineConstrOp : List Char :=
  chars "01-Jan-24 10:00:04 : DTP_API - NEW_LINK_CONSTR_OPERATION: https://c1, [https://op1,https://op2]"

/-- The exact line `link_node_constr_to_operation` writes (f-string with
the Python list interpolated as its `repr`). -/
def lineC1 : List Char :=
  sessionLine (chars "01-Jan-24 10:00:00")
    (msgWithList (chars "NEW_LINK_CONSTR_OPERATION") (chars "https://c1")
      [chars "https://op1", chars "https://op2"])

/-- The three pages of the specification's pagination example:
`P0{items:[1,2],size:2,next:"u1"}`, `P1{items:[3],size:1,next:"u2"}`,
`P2{items:[],size:0}`. -/
def c4fetch : Option (List Char) → PyPage
  | Option.none => ⟨[1, 2], 2, some (chars "u1")⟩
  | some u =>
    if u = chars "u1" then ⟨[3], 1, some (chars "u2")⟩
    else ⟨[], 0, Option.none⟩

/-- Concatenation of effect traces: the state reached after performing
`s`'s effects and then `t`'s. -/
def St.append (s t : St) : St :=
  ⟨s.sent ++ t.sent, s.sessionLog ++ t.sessionLog, s.dumps ++ t.dumps,
   s.counter + t.counter⟩

/-- Concatenation of a list of effect traces, in order. -/
def concatSts (l : List St) : St := l.foldr (fun a b => St.append a b) st0

/-- `revert_line` on this line always succeeds and appends exactly the
effect trace `d`, whatever the state it starts from (true of every line
the orchestrator compensates cleanly: the effects depend only on the line
and the environment). -/
def LineShifts (env : Env) (line : List Char) (d : St) : Prop :=
  ∀ s, revert_line line env s = (.ok (), St.append s d)

theorem drop_append_plus (p rest : List Char) (k : Nat) :
    (p ++ rest).drop (p.length + k) = rest.drop k := by
  induction p with
  | nil => simp
  | cons h t ih => simp [List.length_cons, Nat.succ_add, ih]

theorem dropWhileAllFalse {p : Char → Bool} :
    ∀ {l : List Char}, (∀ c ∈ l, p c = false) → l.dropWhile p = l
  | [], _ => rfl
  | c :: t, h => by simp [List.dropWhile_cons, h c (List.mem_cons_self c t)]

theorem pyLStrip_cons_space {c : Char} (h : pySpace c = true) (l : List Char) :
    pyLStrip (c :: l) = pyLStrip l := by
  simp [pyLStrip, List.dropWhile_cons, h]

theorem pyLStrip_eq_self {l : List Char} (h : ∀ c ∈ l, pySpace c = false) :
    pyLStrip l = l := dropWhileAllFalse h

theorem pyRStrip_eq_self {l : List Char} (h : ∀ c ∈ l, pySpace c = false) :
    pyRStrip l = l := by
  unfold pyRStrip
  rw [dropWhileAllFalse (fun c hc => h c (List.mem_reverse.mp hc)),
    List.reverse_reverse]

theorem pyStrip_cons_space {c : Char} (h : pySpace c = true) (l : List Char) :
    pyStrip (c :: l) = pyStrip l := by
  simp [pyStrip, pyLStrip_cons_space h]

theorem pyStrip_eq_self {l : List Char} (h : ∀ c ∈ l, pySpace c = false) :
    pyStrip l = l := by
  simp [pyStrip, pyLStrip_eq_self h, pyRStrip_eq_self h]

theorem pyRStrip_append {b : List Char} (hb : b ≠ [])
    (h : ∀ c ∈ b, pySpace c = false) (x : List Char) :
    pyRStrip (x ++ b) = x ++ b := by
  rcases hr : b.reverse with _ | ⟨c, t⟩
  · exact absurd (by simpa using congrArg List.reverse hr) hb
  · have hc : pySpace c = false := by
      apply h
      apply List.mem_reverse.mp
      rw [hr]; exact List.mem_cons_self c t
    have hb2 : b = t.reverse ++ [c] := by
      rw [← List.reverse_reverse b, hr]; simp
    unfold pyRStrip
    rw [List.reverse_append, hr]
    simp [List.dropWhile_cons, hc, hb2]

theorem pySplit_not_mem {c : Char} : ∀ {l : List Char}, c ∉ l → pySplit c l = [l]
  | [], _ => rfl
  | x :: t, h => by
    have hx : ¬x = c := fun hh => h (hh ▸ List.mem_cons_self x t)
    have ht : c ∉ t := fun hh => h (List.mem_cons_of_mem x hh)
    simp [pySplit, hx, pySplit_not_mem ht]

theorem pySplit_append {c : Char} :
    ∀ {a : List Char}, c ∉ a → ∀ r, pySplit c (a ++ c :: r) = a :: pySplit c r
  | [], _, r => by simp [pySplit]
  | x :: t, h, r => by
    have hx : ¬x = c := fun hh => h (hh ▸ List.mem_cons_self x t)
    have ht : c ∉ t := fun hh => h (List.mem_cons_of_mem x hh)
    simp [pySplit, hx, pySplit_append ht r]

theorem pySplitFirst_not_mem {c : Char} :
    ∀ {l : List Char}, c ∉ l → pySplitFirst c l = none
  | [], _ => rfl
  | x :: t, h => by
    have hx : ¬x = c := fun hh => h (hh ▸ List.mem_cons_self x t)
    have ht : c ∉ t := fun hh => h (List.mem_cons_of_mem x hh)
    simp [pySplitFirst, hx, pySplitFirst_not_mem ht]

theorem pySplitFirst_append {c : Char} :
    ∀ {a : List Char}, c ∉ a → ∀ r, pySplitFirst c (a ++ c :: r) = some (a, r)
  | [], _, r => by simp [pySplitFirst]
  | x :: t, h, r => by
    have hx : ¬x = c := fun hh => h (hh ▸ List.mem_cons_self x t)
    have ht : c ∉ t := fun hh => h (List.mem_cons_of_mem x hh)
    simp [pySplitFirst, hx, pySplitFirst_append ht r]

theorem pyLStrip_cons_nospace {c : Char} (h : pySpace c = false) (l : List Char) :
    pyLStrip (c :: l) = c :: l := by
  simp [pyLStrip, List.dropWhile_cons, h]

theorem fieldOk_nospace {a : List Char} (h : fieldOk a) :
    ∀ c ∈ a, pySpace c = false := fun c hc => (h.2 c hc).1

theorem fieldOk_nocomma {a : List Char} (h : fieldOk a) : ',' ∉ a :=
  fun hc => (h.2 _ hc).2.1 rfl

theorem fieldOk_nolb {a : List Char} (h : fieldOk a) : '[' ∉ a :=
  fun hc => (h.2 _ hc).2.2.1 rfl

theorem fieldOk_norb {a : List Char} (h : fieldOk a) : ']' ∉ a :=
  fun hc => (h.2 _ hc).2.2.2.1 rfl

/-- Stripping a field of a writer message: a leading space, then the field,
then more payload ending in a non-space character, strips to the payload. -/
theorem pyStrip_payload {a b : List Char} (ha : fieldOk a) (hb : b ≠ [])
    (hbs : ∀ c ∈ b, pySpace c = false) (mid : List Char) :
    pyStrip (' ' :: (a ++ mid ++ b)) = a ++ mid ++ b := by
  rw [pyStrip_cons_space (by decide)]
  obtain ⟨ha1, ha2⟩ := ha
  rcases a with _ | ⟨c, t⟩
  · exact absurd rfl ha1
  have hc : pySpace c = false := (ha2 c (List.mem_cons_self c t)).1
  rw [pyStrip,
    show (c :: t) ++ mid ++ b = c :: (t ++ mid ++ b) from by simp,
    pyLStrip_cons_nospace hc,
    show c :: (t ++ mid ++ b) = ((c :: t) ++ mid) ++ b from by simp,
    pyRStrip_append hb hbs]

/-- Parsing a flat two-field writer line.  The hypothesis `hfind` says the
marker's first occurrence in the line is the one the writer put there
(true of every real line, whose timestamp prefix does not contain the
marker). -/
theorem parse_flat_core (p marker a b : List Char)
    (ha : fieldOk a) (hb : fieldOk b)
    (hp : '[' ∉ p) (hm : '[' ∉ marker)
    (hfind : pyFind (p ++ marker ++ ':' :: ' ' :: (a ++ ',' :: ' ' :: b)) marker
      = (p.length : Int)) :
    get_info_from_log (p ++ marker ++ ':' :: ' ' :: (a ++ ',' :: ' ' :: b)) marker
      = some [.str a, .str b] := by
  set line := p ++ marker ++ ':' :: ' ' :: (a ++ ',' :: ' ' :: b) with hline
  have hnb : '[' ∉ line := by
    simp [hline, List.mem_append, List.mem_cons, hp, hm, fieldOk_nolb ha,
      fieldOk_nolb hb]
  have hidx : (pyFind line marker + (marker.length : Int) + 1).toNat
      = p.length + (marker.length + 1) := by rw [hfind]; omega
  have hdrop : line.drop (p.length + (marker.length + 1))
      = ' ' :: (a ++ ',' :: ' ' :: b) := by
    rw [hline, show p ++ marker ++ ':' :: ' ' :: (a ++ ',' :: ' ' :: b)
        = p ++ (marker ++ ':' :: ' ' :: (a ++ ',' :: ' ' :: b)) from by simp,
      drop_append_plus, drop_append_plus marker _ 1]
    rfl
  have hstrip : pyStrip (' ' :: (a ++ ',' :: ' ' :: b)) = a ++ ',' :: ' ' :: b := by
    have := pyStrip_payload ha hb.1 (fieldOk_nospace hb) [',', ' ']
    simpa using this
  have hcomma2 : ',' ∉ ' ' :: b := by
    intro hmem
    rcases List.mem_cons.mp hmem with h | h
    · exact absurd h (by decide)
    · exact fieldOk_nocomma hb h
  simp only [get_info_from_log, if_neg hnb, hidx, hdrop, hstrip]
  rw [pySplit_append (fieldOk_nocomma ha), pySplit_not_mem hcomma2]
  simp [pyStrip_eq_self (fieldOk_nospace ha), pyStrip_cons_space (show pySpace ' ' = true from by decide),
    pyStrip_eq_self (fieldOk_nospace hb)]

theorem norb_strRepr {b : List Char} (hb : fieldOk b) : ']' ∉ pyStrRepr b := by
  simp [pyStrRepr, List.mem_cons, List.mem_append, fieldOk_norb hb]

theorem nocomma_strRepr {b : List Char} (hb : fieldOk b) : ',' ∉ pyStrRepr b := by
  simp [pyStrRepr, List.mem_cons, List.mem_append, fieldOk_nocomma hb]

/-- Parsing the line written for an identifier plus a Python list payload:
because the writer interpolates the list's `repr` and the parser does not
strip the sub-items, the items come back single-quoted, and every item
after the first keeps its leading space. -/
theorem parse_list_core (p marker a b c : List Char)
    (ha : fieldOk a) (hb : fieldOk b) (hc : fieldOk c)
    (hfind : pyFind (p ++ marker ++ ':' :: ' ' :: (a ++ ',' :: ' ' :: pyListRepr [b, c]))
        marker = (p.length : Int)) :
    get_info_from_log
        (p ++ marker ++ ':' :: ' ' :: (a ++ ',' :: ' ' :: pyListRepr [b, c])) marker
      = some [.str a, .list [.str (pyStrRepr b), .str (' ' :: pyStrRepr c)]] := by
  set inner := pyStrRepr b ++ ',' :: ' ' :: pyStrRepr c with hinner
  have hrepr : pyListRepr [b, c] = '[' :: inner ++ [']'] := by
    simp [pyListRepr, joinCommaSpace, hinner, chars]
  set line := p ++ marker ++ ':' :: ' ' :: (a ++ ',' :: ' ' :: pyListRepr [b, c])
    with hline
  have hhasb : '[' ∈ line := by
    rw [hline, hrepr]
    simp [List.mem_append, List.mem_cons]
  have hidx : (pyFind line marker + (marker.length : Int) + 1).toNat
      = p.length + (marker.length + 1) := by rw [hfind]; omega
  have hdrop : line.drop (p.length + (marker.length + 1))
      = ' ' :: (a ++ ',' :: ' ' :: ('[' :: inner ++ [']'])) := by
    rw [hline, hrepr, show p ++ marker ++ ':' :: ' ' :: (a ++ ',' :: ' ' :: ('[' :: inner ++ [']']))
        = p ++ (marker ++ ':' :: ' ' :: (a ++ ',' :: ' ' :: ('[' :: inner ++ [']']))) from by simp,
      drop_append_plus, drop_append_plus marker _ 1]
    rfl
  have hstrip : pyStrip (' ' :: (a ++ ',' :: ' ' :: ('[' :: inner ++ [']'])))
      = a ++ ',' :: ' ' :: ('[' :: inner ++ [']']) := by
    have := pyStrip_payload ha (b := [']']) (by simp)
      (by intro x hx; rcases List.mem_singleton.mp hx with rfl; decide)
      (',' :: ' ' :: '[' :: inner)
    simpa using this
  have hsplit1 : pySplitFirst ',' (a ++ ',' :: ' ' :: ('[' :: inner ++ [']']))
      = some (a, ' ' :: ('[' :: inner ++ [']'])) :=
    pySplitFirst_append (fieldOk_nocomma ha) _
  have hstrip2 : pyStrip (' ' :: ('[' :: inner ++ [']'])) = '[' :: inner ++ [']'] := by
    rw [pyStrip_cons_space (by decide), pyStrip,
      show ('[' : Char) :: inner ++ [']'] = '[' :: (inner ++ [']']) from by simp,
      pyLStrip_cons_nospace (by decide),
      show ('[' : Char) :: (inner ++ [']']) = ('[' :: inner) ++ [']'] from by simp,
      pyRStrip_append (by simp)
        (by intro x hx; rcases List.mem_singleton.mp hx with rfl; decide)]
  have hsplitb : pySplitFirst '[' ('[' :: inner ++ [']']) = some ([], inner ++ [']']) := by
    simp [pySplitFirst]
  have hnorb : ']' ∉ inner := by
    rw [hinner]
    intro hmem
    rcases List.mem_append.mp hmem with h | h
    · exact norb_strRepr hb h
    · rcases List.mem_cons.mp h with h | h
      · exact absurd h (by decide)
      · rcases List.mem_cons.mp h with h | h
        · exact absurd h (by decide)
        · exact norb_strRepr hc h
  have hsplitrb : pySplit ']' (inner ++ [']']) = [inner, []] := by
    rw [show inner ++ [']'] = inner ++ ']' :: [] from rfl, pySplit_append hnorb]
    rfl
  have hsplitc : pySplit ',' inner = [pyStrRepr b, ' ' :: pyStrRepr c] := by
    rw [hinner, pySplit_append (nocomma_strRepr hb), pySplit_not_mem]
    intro hmem
    rcases List.mem_cons.mp hmem with h | h
    · exact absurd h (by decide)
    · exact nocomma_strRepr hc h
  simp only [get_info_from_log, if_pos hhasb, hidx, hdrop, hstrip, hsplit1,
    hstrip2, hsplitb, hsplitrb, List.headI, hsplitc, List.map]

/-! ## Claim C1: the parser against the writer -/

/-- C1 (amended): the flat half of the claim holds: for every marker and
comma/bracket/space-free identifier fields, parsing the line the writer
appends for `write(marker, a, b)` yields exactly `[a, b]` (the `pyFind`
hypothesis pins the marker's first occurrence to the writer's, as in
every real line).  The list half fails as claimed and holds in this
amended form: the line written for `write(marker, a, [b, c])` parses to
`[a, [repr b, ' ' ++ repr c]]` — each sub-item keeps the single quotes of
the interpolated Python list `repr`, and every sub-item after the first
keeps its leading space; they are neither trimmed nor unquoted. -/
theorem C1_parser_writer :
    (∀ ts marker a b : List Char, fieldOk a → fieldOk b →
      '[' ∉ ts → '[' ∉ marker →
      pyFind (sessionLine ts (msgFlat2 marker a b)) marker = ((ts.length : Int) + 13) →
      get_info_from_log (sessionLine ts (msgFlat2 marker a b)) marker
        = some [.str a, .str b]) ∧
    (∀ ts marker a b c : List Char, fieldOk a → fieldOk b → fieldOk c →
      pyFind (sessionLine ts (msgWithList marker a [b, c])) marker
        = ((ts.length : Int) + 13) →
      get_info_from_log (sessionLine ts (msgWithList marker a [b, c])) marker
        = some [.str a, .list [.str (pyStrRepr b), .str (' ' :: pyStrRepr c)]]) := by
  constructor
  · intro ts marker a b ha hb hts hm hfind
    have hshape : sessionLine ts (msgFlat2 marker a b)
        = (ts ++ chars " : DTP_API - ") ++ marker ++ ':' :: ' ' :: (a ++ ',' :: ' ' :: b) := by
      simp [sessionLine, msgFlat2, chars]
    have hlen : ((ts ++ chars " : DTP_API - ").length : Int) = (ts.length : Int) + 13 := by
      rw [List.length_append]
      rw [show (chars " : DTP_API - ").length = 13 from rfl]
      push_cast
      ring
    rw [hshape] at hfind ⊢
    refine parse_flat_core _ _ _ _ ha hb ?_ hm ?_
    · simp [List.mem_append, hts, chars]
    · rw [hfind, hlen]
  · intro ts marker a b c ha hb hc hfind
    have hshape : sessionLine ts (msgWithList marker a [b, c])
        = (ts ++ chars " : DTP_API - ") ++ marker ++
            ':' :: ' ' :: (a ++ ',' :: ' ' :: pyListRepr [b, c]) := by
      simp [sessionLine, msgWithList, chars]
    have hlen : ((ts ++ chars " : DTP_API - ").length : Int) = (ts.length : Int) + 13 := by
      rw [List.length_append]
      rw [show (chars " : DTP_API - ").length = 13 from rfl]
      push_cast
      ring
    rw [hshape] at hfind ⊢
    refine parse_list_core _ _ _ _ _ ha hb hc ?_
    rw [hfind, hlen]

/-- C1 witness: the flat and list halves at concrete writer lines. -/
theorem C1_parser_writer_witness :
    get_info_from_log (sessionLine (chars "02-Jan-24 09:00:00")
        (msgFlat2 (chars "NEW_LINK_ELEMENT_BLOB") (chars "uuid-a") (chars "uuid-b")))
        (chars "NEW_LINK_ELEMENT_BLOB")
      = some [.str (chars "uuid-a"), .str (chars "uuid-b")] ∧
    get_info_from_log lineC1 (chars "NEW_LINK_CONSTR_OPERATION")
      = some [.str (chars "https://c1"),
          .list [.str (pyStrRepr (chars "https://op1")),
            .str (' ' :: pyStrRepr (chars "https://op2"))]] := by
  constructor
  · exact C1_parser_writer.1 (chars "02-Jan-24 09:00:00")
      (chars "NEW_LINK_ELEMENT_BLOB") (chars "uuid-a") (chars "uuid-b")
      (by decide) (by decide) (by decide) (by decide) (by decide)
  · exact C1_parser_writer.2 (chars "01-Jan-24 10:00:00")
      (chars "NEW_LINK_CONSTR_OPERATION") (chars "https://c1")
      (chars "https://op1") (chars "https://op2")
      (by decide) (by decide) (by decide) (by decide)

/-- C1 counterexample: on the line the writer appends for
`write(NEW_LINK_CONSTR_OPERATION, "https://c1", ["https://op1",
"https://op2"])`, the parser does *not* return
`["https://c1", ["https://op1", "https://op2"]]`: the sub-items come back
as `'https://op1'` and `· 'https://op2'` (quoted, the second with a
leading space). -/
theorem C1_counterexample :
    get_info_from_log lineC1 (chars "NEW_LINK_CONSTR_OPERATION")
      = some [.str (chars "https://c1"),
          .list [.str (chars "'https://op1'"), .str (chars " 'https://op2'")]] ∧
    get_info_from_log lineC1 (chars "NEW_LINK_CONSTR_OPERATION")
      ≠ some [.str (chars "https://c1"),
          .list [.str (chars "https://op1"), .str (chars "https://op2")]] := by
  refine ⟨rfl, fun h => ?_⟩
  have heq : (some [PyVal.str (chars "https://c1"),
      PyVal.list [PyVal.str (chars "'https://op1'"), PyVal.str (chars " 'https://op2'")]]
      : Option (List PyVal))
      = some [PyVal.str (chars "https://c1"),
          PyVal.list [PyVal.str (chars "https://op1"), PyVal.str (chars "https://op2")]] := h
  injection heq with h1
  injection h1 with h2 h3
  injection h3 with h4 h5
  injection h4 with h6
  injection h6 with h7 h8
  injection h7 with h9
  exact absurd h9 (by decide)

/-! ## Claim C4: the pagination walker -/

theorem queryLoop_eq_spec (fetch : Option (List Char) → PyPage) :
    ∀ (fuel : Nat) (acc cur : PyPage),
      queryLoop fetch fuel acc cur
        = { acc with
            items := (fetchAllSpecLoop fetch fuel acc.items acc.size cur).1,
            size := (fetchAllSpecLoop fetch fuel acc.items acc.size cur).2 } := by
  intro fuel
  induction fuel with
  | zero => intro acc cur; simp [queryLoop, fetchAllSpecLoop]
  | succ n ih =>
    intro acc cur
    rw [queryLoop, fetchAllSpecLoop]
    by_cases hcond : cur.next.isSome ∧ cur.size ≠ 0
    · rw [if_pos hcond, if_pos hcond]
      by_cases hsz : (fetch cur.next).size ≤ 0
      · rw [if_pos hsz, if_pos hsz]
      · rw [if_neg hsz, if_neg hsz, ih]
    · rw [if_neg hcond, if_neg hcond]

/-- C4: `query_all_pages` equals the reference pagination walk of the
specification at every fuel and fetch function; a first page of size `0`
is returned unchanged with a single fetch; and on the specification's
three-page example it accumulates `items = [1,2,3]`, `size = 3` and
performs exactly the three fetches (initial, `u1`, `u2`), stopping after
`P2`.  (The accumulated dictionary is the first page's, so it also keeps
that page's `next` cursor — the spec's result notation shows only `items`
and `size`.) -/
theorem C4_query_all_pages :
    (∀ (fuel : Nat) (fetch : Option (List Char) → PyPage),
      query_all_pages fuel fetch = fetch_all_spec fuel fetch) ∧
    (∀ (fuel : Nat) (fetch : Option (List Char) → PyPage),
      (fetch Option.none).size = 0 →
      query_all_pages fuel fetch = fetch Option.none ∧
      query_all_pages_calls fuel fetch = [Option.none]) ∧
    ((query_all_pages 100 c4fetch).items = [1, 2, 3] ∧
      (query_all_pages 100 c4fetch).size = 3 ∧
      query_all_pages_calls 100 c4fetch
        = [Option.none, some (chars "u1"), some (chars "u2")]) := by
  refine ⟨?_, ?_, by decide, by decide, by decide⟩
  · intro fuel fetch
    rw [query_all_pages, fetch_all_spec, queryLoop_eq_spec]
  · intro fuel fetch h
    have hcond : ¬((fetch Option.none).next.isSome ∧ (fetch Option.none).size ≠ 0) := by
      simp [h]
    constructor
    · rw [query_all_pages]
      cases fuel with
      | zero => rfl
      | succ n => rw [queryLoop, if_neg hcond]
    · rw [query_all_pages_calls]
      cases fuel with
      | zero => rfl
      | succ n => rw [queryLoopCalls, if_neg hcond]

/-- C4 witness: the size-zero edge case at a concrete fetch function. -/
theorem C4_query_all_pages_witness :
    query_all_pages 5 (fun _ => ⟨[], 0, Option.none⟩) = ⟨[], 0, Option.none⟩ ∧
    query_all_pages_calls 5 (fun _ => ⟨[], 0, Option.none⟩) = [Option.none] :=
  C4_query_all_pages.2.1 5 (fun _ => ⟨[], 0, Option.none⟩) rfl

/-! ## Claim C9: `general_guarded_request` never raises -/

/-- C9: for every `req_type` string (empty or arbitrary), payload, URL,
environment and state, `general_guarded_request` returns normally — the
emptiness and PUT/POST checks construct exception objects without raising
them — and the prepared request's method is exactly the stripped,
uppercased `req_type`; under simulation it returns `None` having sent
nothing, otherwise it sends that one request and returns the raw
response.  `post_guarded_request` and `put_guarded_request` are the
`"POST"`/`"PUT"` instances. -/
theorem C9_guarded_request_never_raises :
    (∀ (req_type : List Char) (payload : Json) (url : List Char) (env : Env) (s : St),
      general_guarded_request req_type payload url env s
        = (.ok (if env.sim then Option.none
              else some (env.respond ⟨pyUpper (pyStrip req_type), url, payload⟩)),
           if env.sim then s
           else { s with sent := s.sent ++ [⟨pyUpper (pyStrip req_type), url, payload⟩] })) ∧
    (∀ (payload : Json) (url : List Char),
      post_guarded_request payload url
        = general_guarded_request (chars "POST") payload url) ∧
    (∀ (payload : Json) (url : List Char),
      put_guarded_request payload url
        = general_guarded_request (chars "PUT") payload url) := by
  refine ⟨?_, fun _ _ => rfl, fun _ _ => rfl⟩
  intro rt p u env s
  cases henv : env.sim with
  | false =>
    simp only [general_guarded_request, askEnv, sendReq, bind, henv,
      Bool.not_false, if_true, pure]
    rfl
  | true =>
    simp only [general_guarded_request, askEnv, sendReq, bind, henv, pure]
    rfl

/-! ## Claims C6 and C7: simulation mode -/

/-- C6 (amended): simulation mode suppresses the session-log write along
with the network effect: with simulation on, `link_node_element_to_blob`
and `update_asdesigned_param_node` return `True` with the state — the
session log included — completely unchanged.  (The `session_logger.info`
call sits inside the `if not self.simulation_mode` / `response.ok`
branch, so no session line is appended for a simulated mutation.) -/
theorem C6_sim_suppresses_session_log :
    (∀ (node_uuid blob_uuid : List Char) (env : Env) (s : St), env.sim = true →
      link_node_element_to_blob node_uuid blob_uuid env s = (.ok (.bool true), s)) ∧
    (∀ (node_iri : List Char) (b : Bool) (env : Env) (s : St), env.sim = true →
      update_asdesigned_param_node node_iri b env s = (.ok (.bool true), s)) := by
  constructor
  · intro node blob env s hsim
    simp only [link_node_element_to_blob, post_guarded_request,
      general_guarded_request, askEnv, sendReq, bind, pure, hsim]
    rfl
  · intro node b env s hsim
    simp only [update_asdesigned_param_node, put_guarded_request,
      general_guarded_request, askEnv, sendReq, bind, pure, hsim]
    rfl

/-- C6 witness: a simulated `link_node_element_to_blob` at concrete
inputs leaves the trace untouched. -/
theorem C6_sim_suppresses_session_log_witness :
    link_node_element_to_blob (chars "uuid-a") (chars "uuid-b") (envOf true) st0
      = (.ok (.bool true), st0) :=
  C6_sim_suppresses_session_log.1 (chars "uuid-a") (chars "uuid-b")
    (envOf true) st0 rfl

/-- C6 counterexample: with simulation on and a session logger installed,
a guarded mutation appends *no* session-log line (the claim says one is
still appended): the run returns `True` and the session log stays
empty. -/
theorem C6_counterexample :
    (envOf true).hasLogger = true ∧
    (link_node_element_to_blob (chars "uuid-a") (chars "uuid-b")
        (envOf true) st0).1 = .ok (.bool true) ∧
    ((link_node_element_to_blob (chars "uuid-a") (chars "uuid-b")
        (envOf true) st0).2).sessionLog = [] := by
  refine ⟨rfl, ?_, ?_⟩ <;> rfl

/-- C8 evaluation at the failing input: of a directory holding two
time-stamp-named session logs and one non-`.log` file,
`revert_sessions` selects exactly the two `.log` files, but processes
them in *ascending* filename order — the older `db_session-20230101`
log first — because the source sorts with `reverse=False`, although its
own adjacent comment (and the claim) say "newest to oldest". -/
theorem C8_revert_sessions_processes_oldest_first :
    revert_sessions_order
        [chars "db_session-20230202-000000.log",
         chars "db_session-20230101-000000.log", chars "notes.txt"]
      = [chars "db_session-20230101-000000.log",
         chars "db_session-20230202-000000.log"] := by
  decide

/-! ## Claim C5: reverting a `NEW_LINK_CONSTR_OPERATION` line -/

/-- C5: reverting a single-line log whose line carries the
`NEW_LINK_CONSTR_OPERATION` marker (and none of the markers the dispatch
chain tests before it) and parses to a construction IRI plus the
two-operation list `[op1, op2]` issues *exactly one* store request: a
guarded PUT to `update_unset` whose payload carries one `hasOperation`
out-edge for `op1` and one for `op2` on the construction node — not two
separate requests. -/
theorem C5_unlink_constr_single_request
    (line c o1 o2 : List Char) (env : Env) (s : St)
    (h1 : inStr (chars "NEW_LINK_ELEMENT_BLOB") line = false)
    (h2 : inStr (chars "NEW_BLOB") line = false)
    (h3 : inStr (chars "UPDATE_isAsDesigned_PARAM_NODE_OPERATION") line = false)
    (h4 : inStr (chars "UPDATE_ACTION_IRI") line = false)
    (h5 : inStr (chars "UPDATE_OPERATION_IRI") line = false)
    (h6 : inStr (chars "UPDATE_CONSTRUCTION_IRI") line = false)
    (h7 : inStr (chars "REMOVED_PARAM_NODE_OPERATION") line = false)
    (h8 : inStr (chars "ADD_PARAM_NODE_OPERATION") line = false)
    (h9 : inStr (chars "NEW_LINK_ELEMENT_ELEMENT_TYPE") line = false)
    (hC : inStr (chars "NEW_LINK_CONSTR_OPERATION") line = true)
    (hparse : get_info_from_log line (chars "NEW_LINK_CONSTR_OPERATION")
      = some [.str c, .list [.str o1, .str o2]])
    (hsim : env.sim = false)
    (hresp : env.respond = fun _ => stdOkResponse) :
    revert_last_session [line] env s
      = (.ok (),
         { s with
            sent := s.sent ++ [⟨chars "PUT", env.apiUrl (chars "update_unset"),
              edgePayload env c
                [outEdge (env.ontologyUri (chars "hasOperation")) o1,
                 outEdge (env.ontologyUri (chars "hasOperation")) o2]⟩],
            counter := s.counter + 1 }) := by
  simp [revert_last_session, revert_lines, revert_line, parseLog, liftOpt,
    unpack2, asStr, asStrList, asStrEach, index0, incCounter, unlink_constr_op,
    put_guarded_request, general_guarded_request, askEnv, sendReq, bind, pure,
    h1, h2, h3, h4, h5, h6, h7, h8, h9, hC, hparse, hsim, hresp, stdOkResponse]
  rfl

/-- C5 witness: the concrete line
`"... NEW_LINK_CONSTR_OPERATION: https://c1, [https://op1,https://op2]"`
reverts with exactly one `update_unset` request naming both operations. -/
theorem C5_unlink_constr_single_request_witness :
    revert_last_session [lineConstrOp] (envOf false) st0
      = (.ok (),
         { st0 with
            sent := [⟨chars "PUT", (envOf false).apiUrl (chars "update_unset"),
              edgePayload (envOf false) (chars "https://c1")
                [outEdge ((envOf false).ontologyUri (chars "hasOperation")) (chars "https://op1"),
                 outEdge ((envOf false).ontologyUri (chars "hasOperation")) (chars "https://op2")]⟩],
            counter := 1 }) := by
  exact C5_unlink_constr_single_request lineConstrOp (chars "https://c1")
    (chars "https://op1") (chars "https://op2") (envOf false) st0
    (by decide) (by decide) (by decide) (by decide) (by decide) (by decide)
    (by decide) (by decide) (by decide) (by decide) rfl rfl rfl


/-! ## Claims C2 and C3: the revert orchestrator's error handling and order -/

theorem M_throw_def (e : Err) (α : Type) :
    (throw e : M α) = fun _ s => (.error e, s) := rfl

theorem M_bind_def {α β : Type} (m : M α) (f : α → M β) :
    (m >>= f) = fun env s =>
      match m env s with
      | (.ok a, s₁) => f a env s₁
      | (.error e, s₁) => (.error e, s₁) := rfl

/-- A line containing none of the recognized markers is skipped: the
orchestrator's `next(...)` raises `StopIteration`, which the
`except StopIteration: continue` turns into a no-op. -/
theorem revert_line_no_marker (line : List Char)
    (h : ∀ m ∈ allMarkers, inStr m line = false) :
    ∀ (env : Env) (s : St), revert_line line env s = (.ok (), s) := by
  intro env s
  have hfind : nodeClassMarkers.find? (fun m => inStr m line) = Option.none := by
    rw [List.find?_eq_none]
    intro x hx
    simp [h x (by rw [allMarkers]; exact List.mem_append_left _ hx)]
  simp [revert_line,
    h (chars "NEW_LINK_ELEMENT_BLOB") (by decide),
    h (chars "NEW_BLOB") (by decide),
    h (chars "UPDATE_isAsDesigned_PARAM_NODE_OPERATION") (by decide),
    h (chars "UPDATE_ACTION_IRI") (by decide),
    h (chars "UPDATE_OPERATION_IRI") (by decide),
    h (chars "UPDATE_CONSTRUCTION_IRI") (by decide),
    h (chars "REMOVED_PARAM_NODE_OPERATION") (by decide),
    h (chars "ADD_PARAM_NODE_OPERATION") (by decide),
    h (chars "NEW_LINK_ELEMENT_ELEMENT_TYPE") (by decide),
    h (chars "NEW_LINK_CONSTR_OPERATION") (by decide),
    h (chars "NEW_LINK_OPERATION_ACTION") (by decide),
    h (chars "NEW_LINK_ACTION_ASBUILT") (by decide),
    h (chars "NEW_LINK_NODE_TASK_TYPE") (by decide),
    hfind, bind, pure]

/-- A line carrying the `NEW_LINK_ELEMENT_BLOB` marker (the first branch
of the dispatch chain) whose payload parses to a single field raises
`ValueError` at the 2-tuple unpacking, leaving the state as it was. -/
theorem revert_line_blob_badshape (line : List Char) (v : PyVal)
    (hC : inStr (chars "NEW_LINK_ELEMENT_BLOB") line = true)
    (hparse : get_info_from_log line (chars "NEW_LINK_ELEMENT_BLOB") = some [v]) :
    ∀ (env : Env) (s : St), revert_line line env s = (.error .valueError, s) := by
  intro env s
  simp [revert_line, hC, parseLog, liftOpt, unpack2, bind, pure, hparse,
    M_throw_def]

/-- On a node-creation line whose store lookup fails (the find-elements
response is an error), the failure is caught by the `try`/`except` around
`get_uuid_for_iri`: the loop continues, the only effect being the failed
fetch itself. -/
theorem revert_line_creation_fail (line mk niri : List Char) (env : Env)
    (h1 : inStr (chars "NEW_LINK_ELEMENT_BLOB") line = false)
    (h2 : inStr (chars "NEW_BLOB") line = false)
    (h3 : inStr (chars "UPDATE_isAsDesigned_PARAM_NODE_OPERATION") line = false)
    (h4 : inStr (chars "UPDATE_ACTION_IRI") line = false)
    (h5 : inStr (chars "UPDATE_OPERATION_IRI") line = false)
    (h6 : inStr (chars "UPDATE_CONSTRUCTION_IRI") line = false)
    (h7 : inStr (chars "REMOVED_PARAM_NODE_OPERATION") line = false)
    (h8 : inStr (chars "ADD_PARAM_NODE_OPERATION") line = false)
    (h9 : inStr (chars "NEW_LINK_ELEMENT_ELEMENT_TYPE") line = false)
    (h10 : inStr (chars "NEW_LINK_CONSTR_OPERATION") line = false)
    (h11 : inStr (chars "NEW_LINK_OPERATION_ACTION") line = false)
    (h12 : inStr (chars "NEW_LINK_ACTION_ASBUILT") line = false)
    (h13 : inStr (chars "NEW_LINK_NODE_TASK_TYPE") line = false)
    (hfind : nodeClassMarkers.find? (fun m => inStr m line) = some mk)
    (hniri : pyStrip (line.drop ((pyFind line mk + (mk.length : Int) + 1).toNat)) = niri)
    (hsim : env.sim = false)
    (hurl : env.urlValid = fun _ => true)
    (hresp : env.respond = fun _ => ⟨false, 500, Json.null⟩) :
    ∀ s : St, revert_line line env s
      = (.ok (), { s with sent := s.sent ++ [⟨chars "POST",
          env.apiUrl (chars "get_find_elements"), iriQueryPayload env niri⟩] }) := by
  intro s
  simp [revert_line, h1, h2, h3, h4, h5, h6, h7, h8, h9, h10, h11, h12, h13,
    hfind, hniri, get_uuid_for_iri, observeErr, askEnv, sendReq, liftOpt,
    bind, pure, M_throw_def, hsim, hurl, hresp]

/-- On a node-creation line whose store lookup succeeds, the orchestrator
resolves the IRI to a UUID (one fetch), then `delete_node_from_graph`
backs the node up (a second fetch and a dump file) and deletes it (a
DELETE request), logging a `DELETE_NODE_UUID` session line and counting
the line as compensated. -/
theorem revert_line_creation_ok (line mk niri : List Char) (env : Env)
    (h1 : inStr (chars "NEW_LINK_ELEMENT_BLOB") line = false)
    (h2 : inStr (chars "NEW_BLOB") line = false)
    (h3 : inStr (chars "UPDATE_isAsDesigned_PARAM_NODE_OPERATION") line = false)
    (h4 : inStr (chars "UPDATE_ACTION_IRI") line = false)
    (h5 : inStr (chars "UPDATE_OPERATION_IRI") line = false)
    (h6 : inStr (chars "UPDATE_CONSTRUCTION_IRI") line = false)
    (h7 : inStr (chars "REMOVED_PARAM_NODE_OPERATION") line = false)
    (h8 : inStr (chars "ADD_PARAM_NODE_OPERATION") line = false)
    (h9 : inStr (chars "NEW_LINK_ELEMENT_ELEMENT_TYPE") line = false)
    (h10 : inStr (chars "NEW_LINK_CONSTR_OPERATION") line = false)
    (h11 : inStr (chars "NEW_LINK_OPERATION_ACTION") line = false)
    (h12 : inStr (chars "NEW_LINK_ACTION_ASBUILT") line = false)
    (h13 : inStr (chars "NEW_LINK_NODE_TASK_TYPE") line = false)
    (hfind : nodeClassMarkers.find? (fun m => inStr m line) = some mk)
    (hniri : pyStrip (line.drop ((pyFind line mk + (mk.length : Int) + 1).toNat)) = niri)
    (hsim : env.sim = false)
    (hurl : env.urlValid = fun _ => true)
    (hresp : env.respond = fun _ => stdOkResponse)
    (hlog : env.hasLogger = true) :
    ∀ s : St, revert_line line env s
      = (.ok (),
         { s with
            sent := s.sent ++
              [⟨chars "POST", env.apiUrl (chars "get_find_elements"),
                iriQueryPayload env niri⟩,
               ⟨chars "POST", env.apiUrl (chars "get_find_elements"),
                Json.obj [(chars "query", Json.obj [(chars "$domain", .str env.domain),
                  (chars "$uuid", .str (chars "uuid-1"))])]⟩,
               ⟨chars "DELETE", env.apiUrl2 (chars "delete_avatar") (chars "uuid-1"),
                Json.str []⟩],
            sessionLog := s.sessionLog ++ [chars "DTP_API - DELETE_NODE_UUID: " ++
              chars "uuid-1" ++ chars ", " ++ dumpPath env (chars "uuid-1")],
            dumps := s.dumps ++ [(dumpPath env (chars "uuid-1"), stdOkBody)],
            counter := s.counter + 1 }) := by
  intro s
  simp [revert_line, h1, h2, h3, h4, h5, h6, h7, h8, h9, h10, h11, h12, h13,
    hfind, hniri, get_uuid_for_iri, observeErr, askEnv, sendReq, liftOpt,
    delete_node_from_graph, fetch_node_with_uuid, post_general_request,
    writeDump, sessionInfo, incCounter, bind, pure, M_throw_def,
    hsim, hurl, hresp, hlog, stdOkResponse, stdOkBody,
    Json.items0Uuid, Json.items0, Json.lookup, Json.lookupList]

theorem revert_lines_cons_ok (l : List Char) (ls : List (List Char))
    (env : Env) (s s' : St) (h : revert_line l env s = (.ok (), s')) :
    revert_lines (l :: ls) env s = revert_lines ls env s' := by
  show (revert_line l >>= fun _ => revert_lines ls) env s = _
  rw [M_bind_def]
  simp [h]

theorem revert_lines_cons_err (l : List Char) (ls : List (List Char))
    (env : Env) (s s' : St) (e : Err) (h : revert_line l env s = (.error e, s')) :
    revert_lines (l :: ls) env s = (.error e, s') := by
  show (revert_line l >>= fun _ => revert_lines ls) env s = _
  rw [M_bind_def]
  simp [h]

/-- C2 (amended): `revert_last_session` never raises for a line with *no*
recognized marker (skipped via the caught `StopIteration`), and a store
failure in the IRI→UUID lookup of a node-creation line is caught and the
loop continues; a log with one such marker-less line between two valid
`NEW_ELEMENT_IRI` lines still compensates both valid lines (two deletes
issued, both counted).  But — unlike the claim — a line carrying a
recognized non-creation marker with a payload of the wrong shape (e.g.
one field where `NEW_LINK_ELEMENT_BLOB` needs two) raises `ValueError`
out of the orchestrator, aborting the remaining, older lines (see the
counterexample). -/
theorem C2_bad_line_handling :
    (∀ (line : List Char), (∀ m ∈ allMarkers, inStr m line = false) →
      ∀ (env : Env) (s : St), revert_line line env s = (.ok (), s)) ∧
    (∀ (line mk niri : List Char) (env : Env),
      inStr (chars "NEW_LINK_ELEMENT_BLOB") line = false →
      inStr (chars "NEW_BLOB") line = false →
      inStr (chars "UPDATE_isAsDesigned_PARAM_NODE_OPERATION") line = false →
      inStr (chars "UPDATE_ACTION_IRI") line = false →
      inStr (chars "UPDATE_OPERATION_IRI") line = false →
      inStr (chars "UPDATE_CONSTRUCTION_IRI") line = false →
      inStr (chars "REMOVED_PARAM_NODE_OPERATION") line = false →
      inStr (chars "ADD_PARAM_NODE_OPERATION") line = false →
      inStr (chars "NEW_LINK_ELEMENT_ELEMENT_TYPE") line = false →
      inStr (chars "NEW_LINK_CONSTR_OPERATION") line = false →
      inStr (chars "NEW_LINK_OPERATION_ACTION") line = false →
      inStr (chars "NEW_LINK_ACTION_ASBUILT") line = false →
      inStr (chars "NEW_LINK_NODE_TASK_TYPE") line = false →
      nodeClassMarkers.find? (fun m => inStr m line) = some mk →
      pyStrip (line.drop ((pyFind line mk + (mk.length : Int) + 1).toNat)) = niri →
      env.sim = false →
      env.urlValid = (fun _ => true) →
      env.respond = (fun _ => ⟨false, 500, Json.null⟩) →
      ∀ s : St, revert_line line env s
        = (.ok (), { s with sent := s.sent ++ [⟨chars "POST",
            env.apiUrl (chars "get_find_elements"), iriQueryPayload env niri⟩] })) ∧
    ((revert_last_session [lineElem1, lineNoMarker, lineElem2]
        (envOf false) st0).1 = .ok () ∧
      (((revert_last_session [lineElem1, lineNoMarker, lineElem2]
        (envOf false) st0).2).sent.filter
          (fun r => r.method = chars "DELETE")).length = 2 ∧
      ((revert_last_session [lineElem1, lineNoMarker, lineElem2]
        (envOf false) st0).2).counter = 2) := by
  have hA := revert_line_creation_ok lineElem2 (chars "NEW_ELEMENT_IRI")
    (chars "https://e2") (envOf false) (by decide) (by decide) (by decide)
    (by decide) (by decide) (by decide) (by decide) (by decide) (by decide)
    (by decide) (by decide) (by decide) (by decide) (by decide) (by decide)
    rfl rfl rfl rfl
  have hB := revert_line_no_marker lineNoMarker (by decide)
  have hC := revert_line_creation_ok lineElem1 (chars "NEW_ELEMENT_IRI")
    (chars "https://e1") (envOf false) (by decide) (by decide) (by decide)
    (by decide) (by decide) (by decide) (by decide) (by decide) (by decide)
    (by decide) (by decide) (by decide) (by decide) (by decide) (by decide)
    rfl rfl rfl rfl
  have hrun : revert_last_session [lineElem1, lineNoMarker, lineElem2]
      (envOf false) st0
      = revert_lines [lineElem2, lineNoMarker, lineElem1] (envOf false) st0 := rfl
  refine ⟨fun line h env s => revert_line_no_marker line h env s,
    ?_, ?_, ?_, ?_⟩
  · intro line mk niri env ha hb hc hd he hf hg hh hi hj hk hl hm hfind hniri
      hsim hurl hresp s
    exact revert_line_creation_fail line mk niri env ha hb hc hd he hf hg hh hi
      hj hk hl hm hfind hniri hsim hurl hresp s
  all_goals
    rw [hrun, revert_lines_cons_ok _ _ _ _ _ (hA st0),
      revert_lines_cons_ok _ _ _ _ _ (hB _ _),
      revert_lines_cons_ok _ _ _ _ _ (hC _)]
  · rfl
  · rfl
  · rfl

/-- C2 witness: the skip part at a concrete marker-less line; the caught
store failure at a concrete `NEW_ELEMENT_IRI` line in the environment
whose find-elements responses fail. -/
theorem C2_bad_line_handling_witness :
    revert_line lineNoMarker (envOf false) st0 = (.ok (), st0) ∧
    revert_line lineElem1 envLookupFail st0
      = (.ok (), { st0 with sent := [⟨chars "POST",
          envLookupFail.apiUrl (chars "get_find_elements"),
          iriQueryPayload envLookupFail (chars "https://e1")⟩] }) := by
  constructor
  · exact C2_bad_line_handling.1 lineNoMarker (by decide) (envOf false) st0
  · have := C2_bad_line_handling.2.1 lineElem1 (chars "NEW_ELEMENT_IRI")
      (chars "https://e1") envLookupFail (by decide) (by decide) (by decide)
      (by decide) (by decide) (by decide) (by decide) (by decide) (by decide)
      (by decide) (by decide) (by decide) (by decide) (by decide) (by decide)
      rfl rfl rfl st0
    simpa [st0] using this

/-- C2 counterexample: a log whose middle line carries the recognized
`NEW_LINK_ELEMENT_BLOB` marker but only one payload field.
`revert_last_session` raises `ValueError` (2-tuple unpacking of a
1-element list) instead of catching and skipping: only the newest line's
compensation (three requests, one line counted) was issued, and the
oldest valid `NEW_ELEMENT_IRI` line is never compensated. -/
theorem C2_counterexample :
    (revert_last_session [lineElem1, lineBadBlob, lineElem2]
        (envOf false) st0).1 = .error .valueError ∧
    ((revert_last_session [lineElem1, lineBadBlob, lineElem2]
        (envOf false) st0).2).sent.length = 3 ∧
    ((revert_last_session [lineElem1, lineBadBlob, lineElem2]
        (envOf false) st0).2).counter = 1 := by
  have hA := revert_line_creation_ok lineElem2 (chars "NEW_ELEMENT_IRI")
    (chars "https://e2") (envOf false) (by decide) (by decide) (by decide)
    (by decide) (by decide) (by decide) (by decide) (by decide) (by decide)
    (by decide) (by decide) (by decide) (by decide) (by decide) (by decide)
    rfl rfl rfl rfl
  have hB := revert_line_blob_badshape lineBadBlob (.str (chars "justone"))
    (by decide) rfl
  have hrun : revert_last_session [lineElem1, lineBadBlob, lineElem2]
      (envOf false) st0
      = revert_lines [lineElem2, lineBadBlob, lineElem1] (envOf false) st0 := rfl
  refine ⟨?_, ?_, ?_⟩ <;>
    rw [hrun, revert_lines_cons_ok _ _ _ _ _ (hA st0),
      revert_lines_cons_err _ _ _ _ _ _ (hB _ _)] <;>
    rfl

theorem St.append_st0 (s : St) : St.append s st0 = s := by
  simp [St.append, st0]

theorem St.append_assoc (a b c : St) :
    St.append (St.append a b) c = St.append a (St.append b c) := by
  simp [St.append, List.append_assoc, Nat.add_assoc]

theorem concatSts_sent :
    ∀ ds : List St, (concatSts ds).sent = (ds.map St.sent).flatten := by
  intro ds
  induction ds with
  | nil => rfl
  | cons d t ih =>
    rw [show concatSts (d :: t) = St.append d (concatSts t) from rfl]
    simp [St.append, ih]

theorem revert_lines_shifts (env : Env) (δ : List Char → St) :
    ∀ ls : List (List Char), (∀ l ∈ ls, LineShifts env l (δ l)) →
      ∀ s : St, revert_lines ls env s = (.ok (), St.append s (concatSts (ls.map δ))) := by
  intro ls
  induction ls with
  | nil =>
    intro _ s
    rw [show concatSts ([].map δ) = st0 from rfl, St.append_st0]
    rfl
  | cons l t ih =>
    intro h s
    rw [revert_lines_cons_ok l t env s _ (h l (List.mem_cons_self l t) s),
      ih (fun x hx => h x (List.mem_cons_of_mem l hx)),
      show concatSts ((l :: t).map δ) = St.append (δ l) (concatSts (t.map δ)) from rfl,
      St.append_assoc]

/-- C3: the revert orchestrator issues compensations in exact reverse
file order.  For every log `L1..Ln` (oldest first) all of whose lines
compensate cleanly — line `l`'s compensation appending the effect trace
`δ l` regardless of the state it runs in — the whole run succeeds and its
effect trace is the concatenation of the per-line traces *in reversed
line order*: `Ln`'s compensation requests come first and `L1`'s last, so
each line's compensation is issued before the preceding (older) line's.
The second conjunct spells this out for the sent-requests trace. -/
theorem C3_revert_reverse_order
    (env : Env) (lines : List (List Char)) (δ : List Char → St)
    (h : ∀ l ∈ lines, LineShifts env l (δ l)) :
    ∀ s : St,
      revert_last_session lines env s
        = (.ok (), St.append s (concatSts (lines.reverse.map δ))) ∧
      ((revert_last_session lines env s).2).sent
        = s.sent ++ (lines.reverse.map (fun l => (δ l).sent)).flatten := by
  intro s
  have hmain : revert_last_session lines env s
      = (.ok (), St.append s (concatSts (lines.reverse.map δ))) := by
    rw [revert_last_session]
    exact revert_lines_shifts env δ lines.reverse
      (fun l hl => h l (List.mem_reverse.mp hl)) s
  refine ⟨hmain, ?_⟩
  rw [hmain]
  show (St.append s (concatSts (lines.reverse.map δ))).sent = _
  rw [St.append, concatSts_sent, List.map_map]
  rfl

/-- C3 witness: a two-line log of `NEW_ELEMENT_IRI` lines (`https://e1`
older, `https://e2` newer).  The run's effect trace is the reversed
per-line traces: the newer line's three compensation requests first, the
older line's last. -/
theorem C3_revert_reverse_order_witness :
    revert_last_session [lineElem1, lineElem2] (envOf false) st0
      = (.ok (), St.append st0 (concatSts ([lineElem1, lineElem2].reverse.map
          (fun l =>
            ⟨[⟨chars "POST", (envOf false).apiUrl (chars "get_find_elements"),
               iriQueryPayload (envOf false)
                 (pyStrip (l.drop ((pyFind l (chars "NEW_ELEMENT_IRI")
                   + ((chars "NEW_ELEMENT_IRI").length : Int) + 1).toNat)))⟩,
              ⟨chars "POST", (envOf false).apiUrl (chars "get_find_elements"),
               Json.obj [(chars "query", Json.obj
                 [(chars "$domain", .str (envOf false).domain),
                  (chars "$uuid", .str (chars "uuid-1"))])]⟩,
              ⟨chars "DELETE",
               (envOf false).apiUrl2 (chars "delete_avatar") (chars "uuid-1"),
               Json.str []⟩],
             [chars "DTP_API - DELETE_NODE_UUID: " ++ chars "uuid-1" ++ chars ", " ++
               dumpPath (envOf false) (chars "uuid-1")],
             [(dumpPath (envOf false) (chars "uuid-1"), stdOkBody)], 1⟩)))) := by
  refine (C3_revert_reverse_order (envOf false) [lineElem1, lineElem2] _ ?_ st0).1
  intro l hl
  rcases List.mem_cons.mp hl with rfl | hl
  · intro s
    exact revert_line_creation_ok lineElem1 (chars "NEW_ELEMENT_IRI")
      (pyStrip (lineElem1.drop ((pyFind lineElem1 (chars "NEW_ELEMENT_IRI")
        + ((chars "NEW_ELEMENT_IRI").length : Int) + 1).toNat))) (envOf false)
      (by decide) (by decide) (by decide) (by decide) (by decide) (by decide)
      (by decide) (by decide) (by decide) (by decide) (by decide) (by decide)
      (by decide) (by decide) rfl rfl rfl rfl rfl s
  · rcases List.mem_singleton.mp hl with rfl
    intro s
    exact revert_line_creation_ok lineElem2 (chars "NEW_ELEMENT_IRI")
      (pyStrip (lineElem2.drop ((pyFind lineElem2 (chars "NEW_ELEMENT_IRI")
        + ((chars "NEW_ELEMENT_IRI").length : Int) + 1).toNat))) (envOf false)
      (by decide) (by decide) (by decide) (by decide) (by decide) (by decide)
      (by decide) (by decide) (by decide) (by decide) (by decide) (by decide)
      (by decide) (by decide) rfl rfl rfl rfl rfl s
